import Mathlib

/-!
Shallow embedding of the vehicle record API in src/main.py.

Strings of the source (Python str / SQL text) are modelled as lists of
Unicode code points restricted to the ASCII fragment, so that the case
folding performed by str.upper, str.lower and SQL ILIKE is explicit
arithmetic on code points.  Column.ilike of SQLAlchemy is a
case-insensitive SQL LIKE pattern match, where code point 37 is the
percent wildcard (any sequence) and code point 95 is the underscore
wildcard (any single character); likeMatch below implements exactly
that.  The database table is modelled as the list of its rows in
insertion order, with Query.first returning the first matching row.
-/

namespace VehicleApi

/-- A Python string, as its list of code points (ASCII model). -/
abbrev PyStr := List Nat

/-- Code points of a Lean string literal, used to transcribe the string
literals of the source. -/
def strCodes (s : String) : PyStr := s.data.map Char.toNat

/-- Python str.upper on one code point (ASCII fragment). -/
def upChar (n : Nat) : Nat := if 97 ≤ n ∧ n ≤ 122 then n - 32 else n

/-- Python str.lower on one code point (ASCII fragment). -/
def lowChar (n : Nat) : Nat := if 65 ≤ n ∧ n ≤ 90 then n + 32 else n

/-- Membership of one code point in the alphanumeric class of Python
str.isalnum (ASCII fragment: letters and digits). -/
def isAlnumChar (n : Nat) : Bool :=
  decide ((65 ≤ n ∧ n ≤ 90) ∨ (97 ≤ n ∧ n ≤ 122) ∨ (48 ≤ n ∧ n ≤ 57))

/-- Python str.upper. -/
def pyUpper (s : PyStr) : PyStr := s.map upChar

/-- Python str.lower. -/
def pyLower (s : PyStr) : PyStr := s.map lowChar

/-- Python str.isalnum: nonempty and every character alphanumeric. -/
def pyIsAlnum (s : PyStr) : Bool := !s.isEmpty && s.all isAlnumChar

/-- The nonempty suffixes of a string followed by the empty suffix (for
the percent wildcard of LIKE, which matches any prefix of the text). -/
def suffixesOf : PyStr → List PyStr
  | [] => [[]]
  | c :: s => (c :: s) :: suffixesOf s

/-- SQL case-insensitive LIKE: likeMatch pattern text is true when the
pattern matches the whole text, code point 37 (percent) matching any
sequence of characters, code point 95 (underscore) matching any single
character, and every other pattern character matching case-insensitively. -/
def likeMatch : PyStr → PyStr → Bool
  | [], s => s.isEmpty
  | p :: ps, s =>
    if p = 37 then (suffixesOf s).any (fun t => likeMatch ps t)
    else
      match s with
      | [] => false
      | c :: s2 => (if p = 95 then true else lowChar p == lowChar c) && likeMatch ps s2

/-- Column.ilike applied to a stored text and a pattern:
text ILIKE pattern. -/
def ilikeMatch (text pattern : PyStr) : Bool := likeMatch pattern text

/-- Case-insensitive equality of strings (equal after lowercasing),
the relation the specification means by a case variant of a string. -/
def ciEq (a b : PyStr) : Prop := a.map lowChar = b.map lowChar

instance (a b : PyStr) : Decidable (ciEq a b) := by
  unfold ciEq
  infer_instance

/-- A pattern string free of the LIKE wildcards percent and underscore. -/
def noWildcard (p : PyStr) : Prop := ∀ c ∈ p, c ≠ 37 ∧ c ≠ 95

instance (p : PyStr) : Decidable (noWildcard p) := by
  unfold noWildcard
  infer_instance

/-- The error outcomes of the API: every failure is reported with HTTP
status 422, distinguished here by kind; validationError covers both the
pydantic field constraint failures and the HTTPException raised inside a
field validator. -/
inductive ApiError where
  | validationError (field : String) (detail : String)
  | duplicateKey
  | notFound
  | persistenceError
deriving DecidableEq, Repr

/-- The pydantic model VehicleBase of src/main.py (lines 30-57): the
eight fields of a vehicle record, both as raw request body and as
validated record. -/
structure VehicleBase where
  vin : PyStr
  manufacturer_name : PyStr
  description : PyStr
  horse_power : Int
  model_name : PyStr
  model_year : Int
  purchase_price : Rat
  fuel_type : PyStr
deriving DecidableEq, Repr

/-- The pydantic model VehicleUpdate of src/main.py (lines 60-77): the
seven mutable fields, the vin being supplied separately in the path. -/
structure VehicleUpdate where
  manufacturer_name : PyStr
  description : PyStr
  horse_power : Int
  model_name : PyStr
  model_year : Int
  purchase_price : Rat
  fuel_type : PyStr
deriving DecidableEq, Repr

/-- The four admissible fuel types (src/main.py lines 51 and 71). -/
def valid_types : List PyStr :=
  [strCodes "gasoline", strCodes "diesel", strCodes "electric", strCodes "hybrid"]

/-- The field validator vin_must_be_alphanumeric (src/main.py lines
40-47): reject a vin that is not alphanumeric, otherwise uppercase it. -/
def vin_must_be_alphanumeric (v : PyStr) : Except ApiError PyStr :=
  if !(pyIsAlnum v) then .error (.validationError "vin" "Invalid Vin")
  else .ok (pyUpper v)

/-- The field validator fuel_type_must_be_valid (src/main.py lines
49-57 and 69-77): reject a fuel type whose lowercasing is not in
valid_types, otherwise lowercase it. -/
def fuel_type_must_be_valid (v : PyStr) : Except ApiError PyStr :=
  if pyLower v ∈ valid_types then .ok (pyLower v)
  else .error (.validationError "fuel_type" "Invalid fuel type")

/-- Validation of a request body against VehicleBase: the field
constraints of src/main.py lines 31-38 (vin length exactly 17,
nonempty names, positive horse power, model year between 1900 and 2025,
positive price, nonempty fuel type) and the two field validators, in
declaration order, producing the normalized record. -/
def validateForCreate (v : VehicleBase) : Except ApiError VehicleBase :=
  if v.vin.length < 17 then .error (.validationError "vin" "min_length 17") else
  if 17 < v.vin.length then .error (.validationError "vin" "max_length 17") else
  match vin_must_be_alphanumeric v.vin with
  | .error e => .error e
  | .ok vinN =>
  if v.manufacturer_name.length < 1 then .error (.validationError "manufacturer_name" "min_length 1") else
  if v.description.length < 1 then .error (.validationError "description" "min_length 1") else
  if v.horse_power ≤ 0 then .error (.validationError "horse_power" "gt 0") else
  if v.model_name.length < 1 then .error (.validationError "model_name" "min_length 1") else
  if v.model_year < 1900 then .error (.validationError "model_year" "ge 1900") else
  if 2025 < v.model_year then .error (.validationError "model_year" "le 2025") else
  if v.purchase_price ≤ 0 then .error (.validationError "purchase_price" "gt 0") else
  if v.fuel_type.length < 1 then .error (.validationError "fuel_type" "min_length 1") else
  match fuel_type_must_be_valid v.fuel_type with
  | .error e => .error e
  | .ok fuelN => .ok { v with vin := vinN, fuel_type := fuelN }

/-- Validation of a request body against VehicleUpdate: the same
constraint set without the vin field (src/main.py lines 60-77). -/
def validateForUpdate (v : VehicleUpdate) : Except ApiError VehicleUpdate :=
  if v.manufacturer_name.length < 1 then .error (.validationError "manufacturer_name" "min_length 1") else
  if v.description.length < 1 then .error (.validationError "description" "min_length 1") else
  if v.horse_power ≤ 0 then .error (.validationError "horse_power" "gt 0") else
  if v.model_name.length < 1 then .error (.validationError "model_name" "min_length 1") else
  if v.model_year < 1900 then .error (.validationError "model_year" "ge 1900") else
  if 2025 < v.model_year then .error (.validationError "model_year" "le 2025") else
  if v.purchase_price ≤ 0 then .error (.validationError "purchase_price" "gt 0") else
  if v.fuel_type.length < 1 then .error (.validationError "fuel_type" "min_length 1") else
  match fuel_type_must_be_valid v.fuel_type with
  | .error e => .error e
  | .ok fuelN => .ok { v with fuel_type := fuelN }

/-- The vehicles table, as its rows in insertion order. -/
abbrev Storage := List VehicleBase

/-- db.query(VehicleDB).filter(VehicleDB.vin.ilike(pattern)).first():
the first stored row whose vin matches the pattern case-insensitively. -/
def findVehicle (pattern : PyStr) (st : Storage) : Option VehicleBase :=
  st.find? (fun r => ilikeMatch r.vin pattern)

/-- The handler create_vehicle (src/main.py lines 108-129) after body
validation: duplicate check by ILIKE on the validated vin, then insert.
The state after the call is returned alongside the outcome. -/
def create_vehicle (vehicle : VehicleBase) (st : Storage) :
    Except ApiError VehicleBase × Storage :=
  match findVehicle vehicle.vin st with
  | some _ => (.error .duplicateKey, st)
  | none => (.ok vehicle, st ++ [vehicle])

/-- The handler get_vehicle (src/main.py lines 132-139): ILIKE lookup
of the path parameter, 422 Vin not found on a miss. -/
def get_vehicle (vin : PyStr) (st : Storage) : Except ApiError VehicleBase :=
  match findVehicle vin st with
  | none => .error .notFound
  | some r => .ok r

/-- The field assignments of update_vehicle (src/main.py lines 150-156):
all seven mutable fields replaced, vin untouched. -/
def applyUpdate (r : VehicleBase) (u : VehicleUpdate) : VehicleBase :=
  { vin := r.vin
    manufacturer_name := u.manufacturer_name
    description := u.description
    horse_power := u.horse_power
    model_name := u.model_name
    model_year := u.model_year
    purchase_price := u.purchase_price
    fuel_type := u.fuel_type }

/-- Replace the first row matching the pattern, returning the updated
row and the new table, or none when no row matches. -/
def updateFirst (vin : PyStr) (u : VehicleUpdate) : Storage → Option (VehicleBase × Storage)
  | [] => none
  | r :: rest =>
    if ilikeMatch r.vin vin then some (applyUpdate r u, applyUpdate r u :: rest)
    else
      match updateFirst vin u rest with
      | none => none
      | some (v, st2) => some (v, r :: st2)

/-- The handler update_vehicle (src/main.py lines 142-167) after body
validation: ILIKE lookup of the path parameter, 422 Vin not found on a
miss, otherwise replacement of the seven mutable fields of the found
row. -/
def update_vehicle (vin : PyStr) (u : VehicleUpdate) (st : Storage) :
    Except ApiError VehicleBase × Storage :=
  match updateFirst vin u st with
  | none => (.error .notFound, st)
  | some (v, st2) => (.ok v, st2)

/-- Remove the first row matching the pattern, or none when no row
matches. -/
def deleteFirst (vin : PyStr) : Storage → Option Storage
  | [] => none
  | r :: rest =>
    if ilikeMatch r.vin vin then some rest
    else
      match deleteFirst vin rest with
      | none => none
      | some st2 => some (r :: st2)

/-- The handler delete_vehicle (src/main.py lines 170-179): ILIKE
lookup of the path parameter, 422 Vin not found on a miss, otherwise
removal of the found row. -/
def delete_vehicle (vin : PyStr) (st : Storage) : Except ApiError Unit × Storage :=
  match deleteFirst vin st with
  | none => (.error .notFound, st)
  | some st2 => (.ok (), st2)

/-- The handler get_all_vehicles (src/main.py lines 102-105). -/
def get_all_vehicles (st : Storage) : List VehicleBase := st

/-- POST /vehicle as seen from the wire: FastAPI validates the body
against VehicleBase before the handler runs. -/
def createEndpoint (raw : VehicleBase) (st : Storage) :
    Except ApiError VehicleBase × Storage :=
  match validateForCreate raw with
  | .error e => (.error e, st)
  | .ok v => create_vehicle v st

/-- PUT /vehicle/vin as seen from the wire: FastAPI validates the body
against VehicleUpdate before the handler runs. -/
def updateEndpoint (vin : PyStr) (raw : VehicleUpdate) (st : Storage) :
    Except ApiError VehicleBase × Storage :=
  match validateForUpdate raw with
  | .error e => (.error e, st)
  | .ok u => update_vehicle vin u st

/-- The storage states reachable from the empty table through the API. -/
inductive Reachable : Storage → Prop
  | empty : Reachable []
  | create (st : Storage) (raw v : VehicleBase) (st2 : Storage) :
      Reachable st → createEndpoint raw st = (.ok v, st2) → Reachable st2
  | update (st : Storage) (vin : PyStr) (raw : VehicleUpdate) (v : VehicleBase) (st2 : Storage) :
      Reachable st → updateEndpoint vin raw st = (.ok v, st2) → Reachable st2
  | delete (st : Storage) (vin : PyStr) (st2 : Storage) :
      Reachable st → delete_vehicle vin st = (.ok (), st2) → Reachable st2

/-- The field constraints every stored record is claimed to satisfy:
vin of length 17, alphanumeric and uppercase; nonempty manufacturer
name, description and model name; positive horse power; model year in
the range 1900 to 2025; positive price; fuel type one of the four
admissible values, in lowercase. -/
def ValidRecord (r : VehicleBase) : Prop :=
  r.vin.length = 17 ∧ (∀ c ∈ r.vin, isAlnumChar c = true) ∧ pyUpper r.vin = r.vin ∧
  1 ≤ r.manufacturer_name.length ∧ 1 ≤ r.description.length ∧
  0 < r.horse_power ∧ 1 ≤ r.model_name.length ∧
  1900 ≤ r.model_year ∧ r.model_year ≤ 2025 ∧ 0 < r.purchase_price ∧
  r.fuel_type ∈ valid_types ∧ pyLower r.fuel_type = r.fuel_type

instance (r : VehicleBase) : Decidable (ValidRecord r) := by
  unfold ValidRecord
  infer_instance

/-- The sample vehicle of the test suite (src/test_api.py), already in
normalized form. -/
def sampleVehicle : VehicleBase :=
  { vin := strCodes "1HGBH41JXMN109186"
    manufacturer_name := strCodes "Honda"
    description := strCodes "Reliable sedan"
    horse_power := 200
    model_name := strCodes "Accord"
    model_year := 2020
    purchase_price := 25000
    fuel_type := strCodes "gasoline" }

/-- A lowercase variant of the sample vehicle, a valid but unnormalized
request body. -/
def sampleRaw : VehicleBase :=
  { sampleVehicle with
    vin := strCodes "1hgbh41jxmn109186"
    fuel_type := strCodes "GASOLINE" }

/-- The update body of the test suite (src/test_api.py). -/
def sampleUpdate : VehicleUpdate :=
  { manufacturer_name := strCodes "Toyota"
    description := strCodes "Updated desc"
    horse_power := 180
    model_name := strCodes "Camry"
    model_year := 2021
    purchase_price := 23000
    fuel_type := strCodes "gasoline" }

/-- The sample vehicle after the sample update has been applied. -/
def sampleUpdated : VehicleBase := applyUpdate sampleVehicle sampleUpdate

/-- A second valid request body: the uppercase variant of the sample
identifier with a different manufacturer. -/
def sampleRaw2 : VehicleBase :=
  { sampleRaw with
    vin := strCodes "1HGBH41JXMN109186"
    manufacturer_name := strCodes "Toyota" }

/-- The LIKE pattern consisting of the single percent wildcard. -/
def percentStr : PyStr := strCodes "%"

deriving instance DecidableEq for Except

/-! ### Case folding on code points -/

theorem lowChar_upChar (n : Nat) : lowChar (upChar n) = lowChar n := by
  unfold upChar lowChar
  split_ifs <;> omega

theorem upChar_upChar (n : Nat) : upChar (upChar n) = upChar n := by
  unfold upChar
  split_ifs <;> omega

theorem lowChar_lowChar (n : Nat) : lowChar (lowChar n) = lowChar n := by
  unfold lowChar
  split_ifs <;> omega

theorem isAlnumChar_upChar (n : Nat) : isAlnumChar (upChar n) = isAlnumChar n := by
  unfold upChar isAlnumChar
  split_ifs with h
  · simp only [decide_eq_decide]
    omega
  · rfl

theorem ne_wildcard_of_isAlnumChar {n : Nat} (h : isAlnumChar n = true) :
    n ≠ 37 ∧ n ≠ 95 := by
  unfold isAlnumChar at h
  simp at h
  omega

theorem ne_wildcard_of_lowChar_eq {n m : Nat} (hm : isAlnumChar m = true)
    (h : lowChar n = lowChar m) : n ≠ 37 ∧ n ≠ 95 := by
  unfold isAlnumChar at hm
  unfold lowChar at h
  simp at hm
  split_ifs at h <;> omega

/-! ### Case folding on strings -/

theorem pyLower_pyUpper (s : PyStr) : pyLower (pyUpper s) = pyLower s := by
  unfold pyLower pyUpper
  rw [List.map_map]
  exact List.map_congr_left fun c _ => lowChar_upChar c

theorem pyUpper_pyUpper (s : PyStr) : pyUpper (pyUpper s) = pyUpper s := by
  unfold pyUpper
  rw [List.map_map]
  exact List.map_congr_left fun c _ => upChar_upChar c

theorem pyLower_pyLower (s : PyStr) : pyLower (pyLower s) = pyLower s := by
  unfold pyLower
  rw [List.map_map]
  exact List.map_congr_left fun c _ => lowChar_lowChar c

theorem length_pyUpper (s : PyStr) : (pyUpper s).length = s.length :=
  List.length_map s upChar

theorem length_pyLower (s : PyStr) : (pyLower s).length = s.length :=
  List.length_map s lowChar

theorem pyIsAlnum_iff (s : PyStr) :
    pyIsAlnum s = true ↔ s ≠ [] ∧ ∀ c ∈ s, isAlnumChar c = true := by
  unfold pyIsAlnum
  simp [List.all_eq_true, List.isEmpty_iff]

theorem all_alnum_upChar (s : PyStr) :
    (s.map upChar).all isAlnumChar = s.all isAlnumChar := by
  induction s with
  | nil => rfl
  | cons c s ih => simp only [List.map_cons, List.all_cons, ih, isAlnumChar_upChar]

theorem pyIsAlnum_pyUpper (s : PyStr) : pyIsAlnum (pyUpper s) = pyIsAlnum s := by
  unfold pyIsAlnum pyUpper
  rw [all_alnum_upChar]
  cases s <;> rfl

theorem ciEq_pyLower_right (a b : PyStr) : ciEq a (pyLower b) ↔ ciEq a b := by
  unfold ciEq pyLower
  rw [List.map_map]
  constructor
  · intro h
    rw [h]
    exact List.map_congr_left fun c _ => lowChar_lowChar c
  · intro h
    rw [h]
    exact (List.map_congr_left fun c _ => lowChar_lowChar c).symm

theorem ciEq_pyUpper_right (a b : PyStr) : ciEq a (pyUpper b) ↔ ciEq a b := by
  unfold ciEq pyUpper
  rw [List.map_map]
  constructor
  · intro h
    rw [h]
    exact List.map_congr_left fun c _ => lowChar_upChar c
  · intro h
    rw [h]
    exact (List.map_congr_left fun c _ => lowChar_upChar c).symm

/-! ### Wildcard-free patterns and LIKE matching -/

theorem noWildcard_of_alnum {s : PyStr} (h : ∀ c ∈ s, isAlnumChar c = true) :
    noWildcard s :=
  fun c hc => ne_wildcard_of_isAlnumChar (h c hc)

theorem noWildcard_of_ciEq {k v : PyStr} (hci : ciEq k v)
    (hv : ∀ c ∈ v, isAlnumChar c = true) : noWildcard k := by
  unfold ciEq at hci
  induction k generalizing v with
  | nil => exact fun c hc => absurd hc (List.not_mem_nil c)
  | cons c k2 ih =>
    cases v with
    | nil => exact absurd hci (by simp)
    | cons d v2 =>
      simp only [List.map_cons, List.cons.injEq] at hci
      intro e he
      rcases List.mem_cons.mp he with rfl | he2
      · exact ne_wildcard_of_lowChar_eq (hv d (by simp)) hci.1
      · exact ih hci.2 (fun x hx => hv x (by simp [hx])) e he2

theorem likeMatch_noWildcard {p : PyStr} (hw : noWildcard p) (s : PyStr) :
    likeMatch p s = true ↔ p.map lowChar = s.map lowChar := by
  induction p generalizing s with
  | nil =>
    cases s <;> simp [likeMatch]
  | cons c p ih =>
    have hc := hw c (by simp)
    have hw2 : noWildcard p := fun d hd => hw d (by simp [hd])
    cases s with
    | nil => simp [likeMatch, hc.1, hc.2]
    | cons d s =>
      simp [likeMatch, hc.1, hc.2, ih hw2]

theorem ilikeMatch_iff_ciEq {p : PyStr} (hw : noWildcard p) (t : PyStr) :
    ilikeMatch t p = true ↔ ciEq t p := by
  unfold ilikeMatch ciEq
  rw [likeMatch_noWildcard hw t]
  exact eq_comm

/-! ### What a successful validation means -/

theorem validateForCreate_ok {raw v : VehicleBase} (h : validateForCreate raw = .ok v) :
    v = { raw with vin := pyUpper raw.vin, fuel_type := pyLower raw.fuel_type } ∧
    raw.vin.length = 17 ∧ pyIsAlnum raw.vin = true ∧
    1 ≤ raw.manufacturer_name.length ∧ 1 ≤ raw.description.length ∧
    0 < raw.horse_power ∧ 1 ≤ raw.model_name.length ∧
    1900 ≤ raw.model_year ∧ raw.model_year ≤ 2025 ∧ 0 < raw.purchase_price ∧
    pyLower raw.fuel_type ∈ valid_types := by
  unfold validateForCreate vin_must_be_alphanumeric fuel_type_must_be_valid at h
  by_cases c1 : raw.vin.length < 17
  · simp [c1] at h
  simp only [if_neg c1] at h
  by_cases c2 : 17 < raw.vin.length
  · simp [c2] at h
  simp only [if_neg c2] at h
  by_cases c3 : pyIsAlnum raw.vin = true
  case neg =>
    have c3f : pyIsAlnum raw.vin = false := by simpa using c3
    simp [c3f] at h
  simp only [c3, Bool.not_true] at h
  simp only [Bool.false_eq_true, if_false] at h
  by_cases c4 : raw.manufacturer_name.length < 1
  · simp [c4] at h
  simp only [if_neg c4] at h
  by_cases c5 : raw.description.length < 1
  · simp [c5] at h
  simp only [if_neg c5] at h
  by_cases c6 : raw.horse_power ≤ 0
  · simp [c6] at h
  simp only [if_neg c6] at h
  by_cases c7 : raw.model_name.length < 1
  · simp [c7] at h
  simp only [if_neg c7] at h
  by_cases c8 : raw.model_year < 1900
  · simp [c8] at h
  simp only [if_neg c8] at h
  by_cases c9 : 2025 < raw.model_year
  · simp [c9] at h
  simp only [if_neg c9] at h
  by_cases c10 : raw.purchase_price ≤ 0
  · simp [c10] at h
  simp only [if_neg c10] at h
  by_cases c11 : raw.fuel_type.length < 1
  · simp [c11] at h
  simp only [if_neg c11] at h
  by_cases c12 : pyLower raw.fuel_type ∈ valid_types
  case neg => simp [c12] at h
  simp only [if_pos c12] at h
  cases h
  exact ⟨rfl, by omega, c3, by omega, by omega, by omega, by omega, by omega, by omega,
    not_le.mp c10, c12⟩

theorem validateForUpdate_ok {raw u : VehicleUpdate} (h : validateForUpdate raw = .ok u) :
    u = { raw with fuel_type := pyLower raw.fuel_type } ∧
    1 ≤ raw.manufacturer_name.length ∧ 1 ≤ raw.description.length ∧
    0 < raw.horse_power ∧ 1 ≤ raw.model_name.length ∧
    1900 ≤ raw.model_year ∧ raw.model_year ≤ 2025 ∧ 0 < raw.purchase_price ∧
    pyLower raw.fuel_type ∈ valid_types := by
  unfold validateForUpdate fuel_type_must_be_valid at h
  by_cases c4 : raw.manufacturer_name.length < 1
  · simp [c4] at h
  simp only [if_neg c4] at h
  by_cases c5 : raw.description.length < 1
  · simp [c5] at h
  simp only [if_neg c5] at h
  by_cases c6 : raw.horse_power ≤ 0
  · simp [c6] at h
  simp only [if_neg c6] at h
  by_cases c7 : raw.model_name.length < 1
  · simp [c7] at h
  simp only [if_neg c7] at h
  by_cases c8 : raw.model_year < 1900
  · simp [c8] at h
  simp only [if_neg c8] at h
  by_cases c9 : 2025 < raw.model_year
  · simp [c9] at h
  simp only [if_neg c9] at h
  by_cases c10 : raw.purchase_price ≤ 0
  · simp [c10] at h
  simp only [if_neg c10] at h
  by_cases c11 : raw.fuel_type.length < 1
  · simp [c11] at h
  simp only [if_neg c11] at h
  by_cases c12 : pyLower raw.fuel_type ∈ valid_types
  case neg => simp [c12] at h
  simp only [if_pos c12] at h
  cases h
  exact ⟨rfl, by omega, by omega, by omega, by omega, by omega, by omega,
    not_le.mp c10, c12⟩

theorem validateForCreate_of_valid {v : VehicleBase} (h : ValidRecord v) :
    validateForCreate v = .ok v := by
  obtain ⟨h1, h2, h3, h4, h5, h6, h7, h8, h9, h10, h11, h12⟩ := h
  have hne : v.vin ≠ [] := by
    intro e
    rw [e] at h1
    simp at h1
  have ha : pyIsAlnum v.vin = true := by
    unfold pyIsAlnum
    simp [hne, List.all_eq_true]
    exact h2
  have hm : pyLower v.fuel_type ∈ valid_types := by
    rw [h12]
    exact h11
  have hfl : 1 ≤ v.fuel_type.length := by
    unfold valid_types at h11
    simp [strCodes] at h11
    rcases h11 with e | e | e | e <;> rw [e] <;> decide
  unfold validateForCreate vin_must_be_alphanumeric fuel_type_must_be_valid
  rw [h1]
  simp only [ha, Bool.not_true, Bool.false_eq_true, if_false]
  have c6 : ¬ (v.horse_power ≤ 0) := not_le.mpr h6
  have c10 : ¬ (v.purchase_price ≤ 0) := not_le.mpr h10
  simp only [if_neg (by omega : ¬ ((17 : Nat) < 17)),
    if_neg (by omega : ¬ (v.manufacturer_name.length < 1))]
  simp only [if_neg (by omega : ¬ (v.description.length < 1)), if_neg c6,
    if_neg (by omega : ¬ (v.model_name.length < 1)),
    if_neg (by omega : ¬ (v.model_year < 1900)),
    if_neg (by omega : ¬ ((2025 : Int) < v.model_year)),
    if_neg c10, if_neg (by omega : ¬ (v.fuel_type.length < 1)), if_pos hm]
  rw [h3, h12]

theorem validRecord_of_validate {raw v : VehicleBase} (h : validateForCreate raw = .ok v) :
    ValidRecord v := by
  obtain ⟨hv, h1, h2, h3, h4, h5, h6, h7, h8, h9, h10⟩ := validateForCreate_ok h
  subst hv
  have hal := (pyIsAlnum_iff raw.vin).mp h2
  refine ⟨?_, ?_, ?_, h3, h4, h5, h6, h7, h8, h9, ?_, ?_⟩
  · show (pyUpper raw.vin).length = 17
    rw [length_pyUpper]
    exact h1
  · show ∀ c ∈ pyUpper raw.vin, isAlnumChar c = true
    intro c hc
    obtain ⟨d, hd, rfl⟩ := List.mem_map.mp hc
    rw [isAlnumChar_upChar]
    exact hal.2 d hd
  · exact pyUpper_pyUpper raw.vin
  · exact h10
  · exact pyLower_pyLower raw.fuel_type

theorem validRecord_applyUpdate {r : VehicleBase} {raw u : VehicleUpdate}
    (hr : ValidRecord r) (h : validateForUpdate raw = .ok u) :
    ValidRecord (applyUpdate r u) := by
  obtain ⟨hu, h3, h4, h5, h6, h7, h8, h9, h10⟩ := validateForUpdate_ok h
  subst hu
  obtain ⟨r1, r2, r3, -, -, -, -, -, -, -, -, -⟩ := hr
  exact ⟨r1, r2, r3, h3, h4, h5, h6, h7, h8, h9, h10,
    pyLower_pyLower raw.fuel_type⟩

/-! ### What the storage operations do -/

theorem findVehicle_eq_none {p : PyStr} {st : Storage} :
    findVehicle p st = none ↔ ∀ r ∈ st, ¬ ilikeMatch r.vin p = true := by
  simp [findVehicle]

theorem findVehicle_cons {p : PyStr} {r : VehicleBase} {rest : Storage} :
    findVehicle p (r :: rest) =
      if ilikeMatch r.vin p then some r else findVehicle p rest := by
  unfold findVehicle
  by_cases hm : ilikeMatch r.vin p <;> simp [List.find?_cons, hm]

theorem updateFirst_eq_none {vin : PyStr} {u : VehicleUpdate} {st : Storage} :
    updateFirst vin u st = none ↔ findVehicle vin st = none := by
  induction st with
  | nil => simp [updateFirst, findVehicle]
  | cons r rest ih =>
    rw [findVehicle_cons]
    unfold updateFirst
    by_cases hm : ilikeMatch r.vin vin
    · simp [hm]
    · simp only [hm, Bool.false_eq_true, if_false, ← ih]
      cases updateFirst vin u rest with
      | none => simp
      | some pr =>
        cases pr
        simp

theorem deleteFirst_eq_none {vin : PyStr} {st : Storage} :
    deleteFirst vin st = none ↔ findVehicle vin st = none := by
  induction st with
  | nil => simp [deleteFirst, findVehicle]
  | cons r rest ih =>
    rw [findVehicle_cons]
    unfold deleteFirst
    by_cases hm : ilikeMatch r.vin vin
    · simp [hm]
    · simp only [hm, Bool.false_eq_true, if_false, ← ih]
      cases deleteFirst vin rest with
      | none => simp
      | some st2 => simp

theorem updateFirst_some {vin : PyStr} {u : VehicleUpdate} {st : Storage}
    {v : VehicleBase} {st2 : Storage} (h : updateFirst vin u st = some (v, st2)) :
    ∃ i, ∃ hi : i < st.length,
      ilikeMatch (st.get ⟨i, hi⟩).vin vin = true ∧
      v = applyUpdate (st.get ⟨i, hi⟩) u ∧ st2 = st.set i v := by
  induction st generalizing v st2 with
  | nil => simp [updateFirst] at h
  | cons r rest ih =>
    unfold updateFirst at h
    by_cases hm : ilikeMatch r.vin vin
    · rw [if_pos hm] at h
      simp only [Option.some.injEq, Prod.mk.injEq] at h
      obtain ⟨rfl, rfl⟩ := h
      exact ⟨0, by simp, hm, rfl, rfl⟩
    · rw [if_neg hm] at h
      cases hres : updateFirst vin u rest with
      | none => rw [hres] at h; cases h
      | some pr =>
        obtain ⟨v2, st3⟩ := pr
        rw [hres] at h
        simp only [Option.some.injEq, Prod.mk.injEq] at h
        obtain ⟨rfl, rfl⟩ := h
        obtain ⟨i, hi, hmi, hv, hst⟩ := ih hres
        exact ⟨i + 1, by simpa using hi, hmi, hv, by rw [hst, List.set_cons_succ]⟩

theorem deleteFirst_subset {vin : PyStr} {st st2 : Storage}
    (h : deleteFirst vin st = some st2) : ∀ x ∈ st2, x ∈ st := by
  induction st generalizing st2 with
  | nil => simp [deleteFirst] at h
  | cons r rest ih =>
    unfold deleteFirst at h
    by_cases hm : ilikeMatch r.vin vin
    · rw [if_pos hm] at h
      cases h
      exact fun x hx => List.mem_cons_of_mem r hx
    · rw [if_neg hm] at h
      cases hres : deleteFirst vin rest with
      | none => rw [hres] at h; cases h
      | some st3 =>
        rw [hres] at h
        cases h
        intro x hx
        rcases List.mem_cons.mp hx with rfl | hx2
        · exact List.mem_cons_self x rest
        · exact List.mem_cons_of_mem r (ih hres x hx2)

/-! ### What a successful endpoint call means -/

theorem createEndpoint_ok {raw v : VehicleBase} {st st2 : Storage}
    (h : createEndpoint raw st = (.ok v, st2)) :
    validateForCreate raw = .ok v ∧ findVehicle v.vin st = none ∧ st2 = st ++ [v] := by
  unfold createEndpoint create_vehicle at h
  cases hval : validateForCreate raw with
  | error e => rw [hval] at h; simp at h
  | ok v0 =>
    rw [hval] at h
    dsimp only at h
    cases hf : findVehicle v0.vin st with
    | some r => rw [hf] at h; simp at h
    | none =>
      rw [hf] at h
      simp only [Prod.mk.injEq, Except.ok.injEq] at h
      obtain ⟨rfl, rfl⟩ := h
      exact ⟨rfl, hf, rfl⟩

theorem updateEndpoint_ok {vin : PyStr} {raw : VehicleUpdate} {v : VehicleBase}
    {st st2 : Storage} (h : updateEndpoint vin raw st = (.ok v, st2)) :
    ∃ u, validateForUpdate raw = .ok u ∧ updateFirst vin u st = some (v, st2) := by
  unfold updateEndpoint update_vehicle at h
  cases hval : validateForUpdate raw with
  | error e => rw [hval] at h; simp at h
  | ok u =>
    rw [hval] at h
    dsimp only at h
    cases hres : updateFirst vin u st with
    | none => rw [hres] at h; simp at h
    | some pr =>
      obtain ⟨v2, st3⟩ := pr
      rw [hres] at h
      simp only [Prod.mk.injEq, Except.ok.injEq] at h
      obtain ⟨rfl, rfl⟩ := h
      exact ⟨u, rfl, hres⟩

theorem delete_vehicle_ok {vin : PyStr} {st st2 : Storage}
    (h : delete_vehicle vin st = (.ok (), st2)) : deleteFirst vin st = some st2 := by
  unfold delete_vehicle at h
  cases hres : deleteFirst vin st with
  | none => rw [hres] at h; simp at h
  | some st3 =>
    rw [hres] at h
    simp only [Prod.mk.injEq] at h
    rw [h.2]

/-! ### Further helper lemmas -/

theorem ciEq_symm {a b : PyStr} (h : ciEq a b) : ciEq b a := Eq.symm h

theorem ciEq_trans {a b c : PyStr} (h1 : ciEq a b) (h2 : ciEq b c) : ciEq a c :=
  Eq.trans h1 h2

theorem ciEq_pyUpper_self (s : PyStr) : ciEq (pyUpper s) s := by
  unfold ciEq
  have h := pyLower_pyUpper s
  unfold pyLower at h
  exact h

theorem ciEq_pyLower_self (s : PyStr) : ciEq (pyLower s) s := by
  unfold ciEq
  have h := pyLower_pyLower s
  unfold pyLower at h
  exact h

theorem pyLower_fixed_of_mem {ft : PyStr} (h : ft ∈ valid_types) : pyLower ft = ft := by
  unfold valid_types at h
  simp [strCodes] at h
  rcases h with e | e | e | e <;> rw [e] <;> decide

theorem lower_mem_valid_types_iff (fuel : PyStr) :
    pyLower fuel ∈ valid_types ↔ ∃ ft ∈ valid_types, ciEq fuel ft := by
  constructor
  · intro h
    exact ⟨pyLower fuel, h, ciEq_symm (ciEq_pyLower_self fuel)⟩
  · rintro ⟨ft, hft, hci⟩
    have h1 : pyLower fuel = pyLower ft := hci
    rw [h1, pyLower_fixed_of_mem hft]
    exact hft

theorem vin_validator_error {s : PyStr} {e : ApiError}
    (h : vin_must_be_alphanumeric s = .error e) :
    e = .validationError "vin" "Invalid Vin" := by
  unfold vin_must_be_alphanumeric at h
  split at h
  · cases h
    rfl
  · cases h

theorem fuel_validator_error {s : PyStr} {e : ApiError}
    (h : fuel_type_must_be_valid s = .error e) :
    e = .validationError "fuel_type" "Invalid fuel type" := by
  unfold fuel_type_must_be_valid at h
  split at h
  · cases h
  · cases h
    rfl

theorem validateForCreate_cases (raw : VehicleBase) :
    (∃ v, validateForCreate raw = .ok v) ∨
    (∃ f d, validateForCreate raw = .error (.validationError f d)) := by
  unfold validateForCreate
  by_cases c1 : raw.vin.length < 17
  · rw [if_pos c1]
    exact .inr ⟨_, _, rfl⟩
  rw [if_neg c1]
  by_cases c2 : 17 < raw.vin.length
  · rw [if_pos c2]
    exact .inr ⟨_, _, rfl⟩
  rw [if_neg c2]
  cases hvin : vin_must_be_alphanumeric raw.vin with
  | error e =>
    rw [vin_validator_error hvin]
    exact .inr ⟨_, _, rfl⟩
  | ok vinN =>
    dsimp only
    by_cases c4 : raw.manufacturer_name.length < 1
    · rw [if_pos c4]
      exact .inr ⟨_, _, rfl⟩
    rw [if_neg c4]
    by_cases c5 : raw.description.length < 1
    · rw [if_pos c5]
      exact .inr ⟨_, _, rfl⟩
    rw [if_neg c5]
    by_cases c6 : raw.horse_power ≤ 0
    · rw [if_pos c6]
      exact .inr ⟨_, _, rfl⟩
    rw [if_neg c6]
    by_cases c7 : raw.model_name.length < 1
    · rw [if_pos c7]
      exact .inr ⟨_, _, rfl⟩
    rw [if_neg c7]
    by_cases c8 : raw.model_year < 1900
    · rw [if_pos c8]
      exact .inr ⟨_, _, rfl⟩
    rw [if_neg c8]
    by_cases c9 : 2025 < raw.model_year
    · rw [if_pos c9]
      exact .inr ⟨_, _, rfl⟩
    rw [if_neg c9]
    by_cases c10 : raw.purchase_price ≤ 0
    · rw [if_pos c10]
      exact .inr ⟨_, _, rfl⟩
    rw [if_neg c10]
    by_cases c11 : raw.fuel_type.length < 1
    · rw [if_pos c11]
      exact .inr ⟨_, _, rfl⟩
    rw [if_neg c11]
    cases hfuel : fuel_type_must_be_valid raw.fuel_type with
    | error e =>
      rw [fuel_validator_error hfuel]
      exact .inr ⟨_, _, rfl⟩
    | ok fuelN => exact .inl ⟨_, rfl⟩

theorem validateForUpdate_cases (raw : VehicleUpdate) :
    (∃ u, validateForUpdate raw = .ok u) ∨
    (∃ f d, validateForUpdate raw = .error (.validationError f d)) := by
  unfold validateForUpdate
  by_cases c4 : raw.manufacturer_name.length < 1
  · rw [if_pos c4]
    exact .inr ⟨_, _, rfl⟩
  rw [if_neg c4]
  by_cases c5 : raw.description.length < 1
  · rw [if_pos c5]
    exact .inr ⟨_, _, rfl⟩
  rw [if_neg c5]
  by_cases c6 : raw.horse_power ≤ 0
  · rw [if_pos c6]
    exact .inr ⟨_, _, rfl⟩
  rw [if_neg c6]
  by_cases c7 : raw.model_name.length < 1
  · rw [if_pos c7]
    exact .inr ⟨_, _, rfl⟩
  rw [if_neg c7]
  by_cases c8 : raw.model_year < 1900
  · rw [if_pos c8]
    exact .inr ⟨_, _, rfl⟩
  rw [if_neg c8]
  by_cases c9 : 2025 < raw.model_year
  · rw [if_pos c9]
    exact .inr ⟨_, _, rfl⟩
  rw [if_neg c9]
  by_cases c10 : raw.purchase_price ≤ 0
  · rw [if_pos c10]
    exact .inr ⟨_, _, rfl⟩
  rw [if_neg c10]
  by_cases c11 : raw.fuel_type.length < 1
  · rw [if_pos c11]
    exact .inr ⟨_, _, rfl⟩
  rw [if_neg c11]
  cases hfuel : fuel_type_must_be_valid raw.fuel_type with
  | error e =>
    rw [fuel_validator_error hfuel]
    exact .inr ⟨_, _, rfl⟩
  | ok fuelN => exact .inl ⟨_, rfl⟩

theorem get_vehicle_append_singleton {k : PyStr} {st : Storage} {v : VehicleBase}
    (hst : ∀ r ∈ st, ¬ ilikeMatch r.vin k = true)
    (hv : ilikeMatch v.vin k = true) : get_vehicle k (st ++ [v]) = .ok v := by
  unfold get_vehicle findVehicle
  rw [List.find?_append, List.find?_eq_none.mpr hst]
  simp [List.find?_cons, hv]

/-! ## The claims -/

/-- C1, counterexample: the lookup of get_vehicle is a LIKE pattern
match, not a case-insensitive exact match.  With one stored record and
the lookup key consisting of the single percent character, no stored
identifier is case-insensitively equal to the key, yet the lookup does
not fail with NotFoundError: it returns the stored record, whose
identifier differs from the key. -/
theorem C1_counterexample :
    (∀ r ∈ [sampleVehicle], ¬ ciEq r.vin percentStr) ∧
    get_vehicle percentStr [sampleVehicle] = .ok sampleVehicle ∧
    ¬ ciEq sampleVehicle.vin percentStr :=
  ⟨by decide, by decide, by decide⟩

/-- C1 (amended): for every identifier free of the LIKE wildcard
characters percent and underscore, get_vehicle is a case-insensitive
exact-match lookup: it fails with NotFoundError exactly when no stored
record identifier is case-insensitively equal to the key, and on
success it returns a stored record whose identifier is
case-insensitively equal to the key. -/
theorem C1_get_exact_match (id : PyStr) (st : Storage) (hw : noWildcard id) :
    (get_vehicle id st = .error .notFound ↔ ∀ r ∈ st, ¬ ciEq r.vin id) ∧
    (∀ r, get_vehicle id st = .ok r → r ∈ st ∧ ciEq r.vin id) := by
  unfold get_vehicle
  cases hf : findVehicle id st with
  | none =>
    have hnone := findVehicle_eq_none.mp hf
    refine ⟨⟨fun _ r hr hci => ?_, fun _ => rfl⟩, fun r hr => ?_⟩
    · exact hnone r hr ((ilikeMatch_iff_ciEq hw r.vin).mpr hci)
    · cases hr
  | some r0 =>
    have hmem := List.mem_of_find?_eq_some hf
    have hmatch := List.find?_some hf
    have hci0 : ciEq r0.vin id := (ilikeMatch_iff_ciEq hw r0.vin).mp hmatch
    refine ⟨⟨fun he => ?_, fun hall => ?_⟩, fun r hr => ?_⟩
    · cases he
    · exact absurd hci0 (hall r0 hmem)
    · cases hr
      exact ⟨hmem, hci0⟩

/-- C1 witness: the amended lookup property applied to a concrete
wildcard-free key and a concrete one-record storage. -/
theorem C1_witness :
    noWildcard (strCodes "1hgbh41jxmn109186") ∧
    ((get_vehicle (strCodes "1hgbh41jxmn109186") [sampleVehicle] = .error .notFound ↔
        ∀ r ∈ [sampleVehicle], ¬ ciEq r.vin (strCodes "1hgbh41jxmn109186")) ∧
      (∀ r, get_vehicle (strCodes "1hgbh41jxmn109186") [sampleVehicle] = .ok r →
        r ∈ [sampleVehicle] ∧ ciEq r.vin (strCodes "1hgbh41jxmn109186"))) :=
  ⟨by decide, C1_get_exact_match (strCodes "1hgbh41jxmn109186") [sampleVehicle] (by decide)⟩

/-- C2: after a successful create of a valid input, looking the record
up under any case variant of the input identifier succeeds and returns
the input record with its identifier uppercased and its fuel type
lowercased, all other fields unchanged. -/
theorem C2_create_get_roundtrip (raw v : VehicleBase) (st st2 : Storage) (k : PyStr)
    (hc : createEndpoint raw st = (.ok v, st2)) (hk : ciEq k raw.vin) :
    get_vehicle k st2 =
      .ok { raw with vin := pyUpper raw.vin, fuel_type := pyLower raw.fuel_type } := by
  obtain ⟨hval, hnone, rfl⟩ := createEndpoint_ok hc
  obtain ⟨hv, h1, h2, -, -, -, -, -, -, -, -⟩ := validateForCreate_ok hval
  subst hv
  have halnum : ∀ c ∈ raw.vin, isAlnumChar c = true := ((pyIsAlnum_iff raw.vin).mp h2).2
  have halnumUp : ∀ c ∈ pyUpper raw.vin, isAlnumChar c = true := by
    intro c hcm
    obtain ⟨d, hd, rfl⟩ := List.mem_map.mp hcm
    rw [isAlnumChar_upChar]
    exact halnum d hd
  have hwk : noWildcard k := noWildcard_of_ciEq hk halnum
  have hwup : noWildcard (pyUpper raw.vin) := noWildcard_of_alnum halnumUp
  have hkup : ciEq (pyUpper raw.vin) k :=
    ciEq_trans (ciEq_pyUpper_self raw.vin) (ciEq_symm hk)
  have hmatch : ilikeMatch (pyUpper raw.vin) k = true :=
    (ilikeMatch_iff_ciEq hwk (pyUpper raw.vin)).mpr hkup
  have hnf : ∀ r ∈ st, ¬ ilikeMatch r.vin (pyUpper raw.vin) = true :=
    findVehicle_eq_none.mp hnone
  have hstn : ∀ r ∈ st, ¬ ilikeMatch r.vin k = true := by
    intro r hr hm
    have hcir : ciEq r.vin k := (ilikeMatch_iff_ciEq hwk r.vin).mp hm
    have hcir2 : ciEq r.vin (pyUpper raw.vin) := ciEq_trans hcir (ciEq_symm hkup)
    exact hnf r hr ((ilikeMatch_iff_ciEq hwup r.vin).mpr hcir2)
  exact get_vehicle_append_singleton hstn hmatch

/-- C2 witness: creating the lowercase sample input in empty storage
and reading it back under the uppercase variant of its identifier. -/
theorem C2_witness :
    createEndpoint sampleRaw [] = (.ok sampleVehicle, [sampleVehicle]) ∧
    ciEq (strCodes "1HGBH41JXMN109186") sampleRaw.vin ∧
    get_vehicle (strCodes "1HGBH41JXMN109186") [sampleVehicle] =
      .ok { sampleRaw with
            vin := pyUpper sampleRaw.vin
            fuel_type := pyLower sampleRaw.fuel_type } :=
  ⟨by decide, by decide,
    C2_create_get_roundtrip sampleRaw sampleVehicle [] [sampleVehicle]
      (strCodes "1HGBH41JXMN109186") (by decide) (by decide)⟩

/-- C3: after a successful create, creating any valid input whose
identifier is a case variant of the first one fails with
DuplicateKeyError, whatever its other fields are, and leaves the
stored record set unchanged. -/
theorem C3_duplicate_create (raw raw2 v : VehicleBase) (st st1 : Storage)
    (h1 : createEndpoint raw st = (.ok v, st1))
    (hval2 : ∃ v2, validateForCreate raw2 = .ok v2)
    (hci : ciEq raw2.vin raw.vin) :
    createEndpoint raw2 st1 = (.error .duplicateKey, st1) := by
  obtain ⟨v2, hval2⟩ := hval2
  obtain ⟨hvalok, hnone, rfl⟩ := createEndpoint_ok h1
  obtain ⟨hv, -, -, -, -, -, -, -, -, -, -⟩ := validateForCreate_ok hvalok
  subst hv
  obtain ⟨hv2, -, h2b, -, -, -, -, -, -, -, -⟩ := validateForCreate_ok hval2
  have halnum2 : ∀ c ∈ raw2.vin, isAlnumChar c = true := ((pyIsAlnum_iff raw2.vin).mp h2b).2
  have hw2 : noWildcard (pyUpper raw2.vin) := noWildcard_of_alnum (by
    intro c hcm
    obtain ⟨d, hd, rfl⟩ := List.mem_map.mp hcm
    rw [isAlnumChar_upChar]
    exact halnum2 d hd)
  have hciv : ciEq (pyUpper raw.vin) (pyUpper raw2.vin) :=
    ciEq_trans (ciEq_pyUpper_self raw.vin)
      (ciEq_trans (ciEq_symm hci) (ciEq_symm (ciEq_pyUpper_self raw2.vin)))
  have hmatch : ilikeMatch (pyUpper raw.vin) (pyUpper raw2.vin) = true :=
    (ilikeMatch_iff_ciEq hw2 (pyUpper raw.vin)).mpr hciv
  unfold createEndpoint
  rw [hval2]
  dsimp only
  unfold create_vehicle
  rw [hv2]
  dsimp only
  cases hf : findVehicle (pyUpper raw2.vin)
      (st ++ [{ raw with vin := pyUpper raw.vin, fuel_type := pyLower raw.fuel_type }]) with
  | none =>
    exfalso
    exact findVehicle_eq_none.mp hf
      { raw with vin := pyUpper raw.vin, fuel_type := pyLower raw.fuel_type }
      (by simp) hmatch
  | some r => rfl

/-- C3 witness: creating the sample input and then an input with the
uppercase variant of the same identifier and different fields. -/
theorem C3_witness :
    createEndpoint sampleRaw [] = (.ok sampleVehicle, [sampleVehicle]) ∧
    (∃ v2, validateForCreate sampleRaw2 = .ok v2) ∧
    ciEq sampleRaw2.vin sampleRaw.vin ∧
    createEndpoint sampleRaw2 [sampleVehicle] =
      (.error .duplicateKey, [sampleVehicle]) :=
  ⟨by decide, ⟨{ sampleVehicle with manufacturer_name := strCodes "Toyota" }, by decide⟩,
    by decide,
    C3_duplicate_create sampleRaw sampleRaw2 sampleVehicle [] [sampleVehicle] (by decide)
      ⟨{ sampleVehicle with manufacturer_name := strCodes "Toyota" }, by decide⟩ (by decide)⟩

/-- C4: a successful validation returns the input with the identifier
uppercased and the fuel type lowercased and nothing else changed, and
validating the returned record again returns it unchanged. -/
theorem C4_validate_normalizes_idempotent (raw v : VehicleBase)
    (h : validateForCreate raw = .ok v) :
    v = { raw with vin := pyUpper raw.vin, fuel_type := pyLower raw.fuel_type } ∧
    validateForCreate v = .ok v :=
  ⟨(validateForCreate_ok h).1, validateForCreate_of_valid (validRecord_of_validate h)⟩

/-- C4 witness: validating the lowercase sample input and revalidating
its normalized result. -/
theorem C4_witness :
    validateForCreate sampleRaw = .ok sampleVehicle ∧
    (sampleVehicle = { sampleRaw with
        vin := pyUpper sampleRaw.vin
        fuel_type := pyLower sampleRaw.fuel_type } ∧
      validateForCreate sampleVehicle = .ok sampleVehicle) :=
  ⟨by decide, C4_validate_normalizes_idempotent sampleRaw sampleVehicle (by decide)⟩

/-- C5: in every storage state reachable through the API from the empty
table, every stored record satisfies all the field constraints:
17-character uppercase alphanumeric identifier, nonempty names,
positive horse power, model year in 1900 to 2025, positive price, and a
lowercase fuel type from the admissible enumeration. -/
theorem C5_storage_invariant (st : Storage) (h : Reachable st) :
    ∀ r ∈ st, ValidRecord r := by
  induction h with
  | empty => simp
  | create st raw v st2 hr hc ih =>
    obtain ⟨hval, hnone, rfl⟩ := createEndpoint_ok hc
    intro r hrm
    rcases List.mem_append.mp hrm with hin | hin
    · exact ih r hin
    · rw [List.mem_singleton.mp hin]
      exact validRecord_of_validate hval
  | update st vin raw v st2 hr hu ih =>
    obtain ⟨u, hval, hfirst⟩ := updateEndpoint_ok hu
    obtain ⟨i, hi, hmi, hv, hst⟩ := updateFirst_some hfirst
    subst hst
    intro r hrm
    rcases List.mem_or_eq_of_mem_set hrm with hin | hin
    · exact ih r hin
    · rw [hin, hv]
      exact validRecord_applyUpdate (ih (st.get ⟨i, hi⟩) (st.get_mem i hi)) hval
  | delete st vin st2 hr hd ih =>
    have hsub := deleteFirst_subset (delete_vehicle_ok hd)
    exact fun r hrm => ih r (hsub r hrm)

/-- C5 witness: the invariant evaluated on the state reached by one
successful create from the empty table. -/
theorem C5_witness : ValidRecord sampleVehicle :=
  C5_storage_invariant [sampleVehicle]
    (Reachable.create [] sampleRaw sampleVehicle [sampleVehicle]
      Reachable.empty (by decide))
    sampleVehicle (by simp)

/-- C6: a successful update replaces exactly the seven mutable fields
of one stored row with the given values, preserves that row identifier
unchanged, and leaves every other row untouched. -/
theorem C6_update_replaces_fields (vin : PyStr) (u : VehicleUpdate) (st st2 : Storage)
    (v : VehicleBase) (h : update_vehicle vin u st = (.ok v, st2)) :
    ∃ i, ∃ hi : i < st.length,
      v.vin = (st.get ⟨i, hi⟩).vin ∧
      v.manufacturer_name = u.manufacturer_name ∧
      v.description = u.description ∧
      v.horse_power = u.horse_power ∧
      v.model_name = u.model_name ∧
      v.model_year = u.model_year ∧
      v.purchase_price = u.purchase_price ∧
      v.fuel_type = u.fuel_type ∧
      st2 = st.set i v ∧
      ∀ j, j ≠ i → st2[j]? = st[j]? := by
  unfold update_vehicle at h
  cases hres : updateFirst vin u st with
  | none =>
    rw [hres] at h
    simp at h
  | some pr =>
    obtain ⟨v2, st3⟩ := pr
    rw [hres] at h
    simp only [Prod.mk.injEq, Except.ok.injEq] at h
    obtain ⟨rfl, rfl⟩ := h
    obtain ⟨i, hi, hmi, hv, hst⟩ := updateFirst_some hres
    subst hv
    refine ⟨i, hi, rfl, rfl, rfl, rfl, rfl, rfl, rfl, rfl, hst, ?_⟩
    intro j hj
    rw [hst]
    exact List.getElem?_set_ne (Ne.symm hj)

/-- C6 witness: updating the sample record in a one-row table. -/
theorem C6_witness :
    update_vehicle sampleVehicle.vin sampleUpdate [sampleVehicle] =
      (.ok sampleUpdated, [sampleUpdated]) ∧
    ∃ i, ∃ hi : i < ([sampleVehicle] : Storage).length,
      sampleUpdated.vin = (([sampleVehicle] : Storage).get ⟨i, hi⟩).vin ∧
      sampleUpdated.manufacturer_name = sampleUpdate.manufacturer_name ∧
      sampleUpdated.description = sampleUpdate.description ∧
      sampleUpdated.horse_power = sampleUpdate.horse_power ∧
      sampleUpdated.model_name = sampleUpdate.model_name ∧
      sampleUpdated.model_year = sampleUpdate.model_year ∧
      sampleUpdated.purchase_price = sampleUpdate.purchase_price ∧
      sampleUpdated.fuel_type = sampleUpdate.fuel_type ∧
      ([sampleUpdated] : Storage) = ([sampleVehicle] : Storage).set i sampleUpdated ∧
      ∀ j, j ≠ i →
        (([sampleUpdated] : Storage))[j]? = (([sampleVehicle] : Storage))[j]? :=
  ⟨by decide,
    C6_update_replaces_fields sampleVehicle.vin sampleUpdate [sampleVehicle]
      [sampleUpdated] sampleUpdated (by decide)⟩

/-- C7, counterexample: the update lookup is a LIKE pattern match.
With one stored record and the lookup key consisting of the single
percent character, no stored identifier is case-insensitively equal to
the key and the update body is valid, yet the update does not fail with
NotFoundError: it succeeds and modifies the stored record set. -/
theorem C7_counterexample :
    (∀ r ∈ [sampleVehicle], ¬ ciEq r.vin percentStr) ∧
    validateForUpdate sampleUpdate = .ok sampleUpdate ∧
    update_vehicle percentStr sampleUpdate [sampleVehicle] =
      (.ok sampleUpdated, [sampleUpdated]) ∧
    ([sampleUpdated] : Storage) ≠ [sampleVehicle] :=
  ⟨by decide, by decide, by decide, by decide⟩

/-- C7 (amended): for every identifier free of the LIKE wildcard
characters percent and underscore such that no stored record identifier
is case-insensitively equal to it, and every update input, the update
fails with NotFoundError and the stored record set is unchanged. -/
theorem C7_update_not_found (id : PyStr) (u : VehicleUpdate) (st : Storage)
    (hw : noWildcard id) (hnm : ∀ r ∈ st, ¬ ciEq r.vin id) :
    update_vehicle id u st = (.error .notFound, st) := by
  have hfn : findVehicle id st = none :=
    findVehicle_eq_none.mpr
      (fun r hr hm => hnm r hr ((ilikeMatch_iff_ciEq hw r.vin).mp hm))
  have hun : updateFirst id u st = none := updateFirst_eq_none.mpr hfn
  unfold update_vehicle
  rw [hun]

/-- C7 witness: updating a missing wildcard-free identifier in a
one-row table. -/
theorem C7_witness :
    noWildcard (strCodes "NOTEXIST123456789") ∧
    (∀ r ∈ [sampleVehicle], ¬ ciEq r.vin (strCodes "NOTEXIST123456789")) ∧
    update_vehicle (strCodes "NOTEXIST123456789") sampleUpdate [sampleVehicle] =
      (.error .notFound, [sampleVehicle]) :=
  ⟨by decide, by decide,
    C7_update_not_found (strCodes "NOTEXIST123456789") sampleUpdate [sampleVehicle]
      (by decide) (by decide)⟩

/-- C8: an input whose identifier has length other than 17 or contains
a non-alphanumeric character is rejected by validation with a
ValidationError, and the create endpoint leaves storage unchanged. -/
theorem C8_invalid_vin_rejected (raw : VehicleBase) (st : Storage)
    (h : raw.vin.length ≠ 17 ∨ ∃ c ∈ raw.vin, isAlnumChar c = false) :
    ∃ f d, validateForCreate raw = .error (.validationError f d) ∧
      createEndpoint raw st = (.error (.validationError f d), st) := by
  have herr : ∃ f d, validateForCreate raw = .error (.validationError f d) := by
    rcases validateForCreate_cases raw with ⟨v, hok⟩ | he
    · obtain ⟨-, h1, h2, -, -, -, -, -, -, -, -⟩ := validateForCreate_ok hok
      rcases h with hl | ⟨c, hc, hbad⟩
      · exact absurd h1 hl
      · have hgood := ((pyIsAlnum_iff raw.vin).mp h2).2 c hc
        rw [hgood] at hbad
        cases hbad
    · exact he
  obtain ⟨f, d, hf⟩ := herr
  refine ⟨f, d, hf, ?_⟩
  unfold createEndpoint
  rw [hf]

/-- C8 witness: the rejection applied to the short identifier 123 of
the test suite. -/
theorem C8_witness :
    (({ sampleVehicle with vin := strCodes "123" } : VehicleBase).vin.length ≠ 17 ∨
      ∃ c ∈ ({ sampleVehicle with vin := strCodes "123" } : VehicleBase).vin,
        isAlnumChar c = false) ∧
    ∃ f d, validateForCreate { sampleVehicle with vin := strCodes "123" } =
        .error (.validationError f d) ∧
      createEndpoint { sampleVehicle with vin := strCodes "123" } [] =
        (.error (.validationError f d), ([] : Storage)) :=
  ⟨by decide,
    C8_invalid_vin_rejected { sampleVehicle with vin := strCodes "123" } [] (by decide)⟩

/-- C9: a fuel type that is not case-insensitively equal to one of
gasoline, diesel, electric, hybrid makes the fuel type check fail with
a ValidationError and makes both validations fail with a
ValidationError; a fuel type that is case-insensitively equal to one of
them passes the check, which yields its lowercase form. -/
theorem C9_fuel_type_check (fuel : PyStr) :
    ((¬ ∃ ft ∈ valid_types, ciEq fuel ft) →
      fuel_type_must_be_valid fuel =
        .error (.validationError "fuel_type" "Invalid fuel type") ∧
      (∀ raw : VehicleBase, raw.fuel_type = fuel →
        ∃ f d, validateForCreate raw = .error (.validationError f d)) ∧
      (∀ ru : VehicleUpdate, ru.fuel_type = fuel →
        ∃ f d, validateForUpdate ru = .error (.validationError f d))) ∧
    ((∃ ft ∈ valid_types, ciEq fuel ft) →
      fuel_type_must_be_valid fuel = .ok (pyLower fuel)) := by
  constructor
  · intro hno
    have hnm : pyLower fuel ∉ valid_types :=
      fun hmem => hno ((lower_mem_valid_types_iff fuel).mp hmem)
    refine ⟨?_, ?_, ?_⟩
    · unfold fuel_type_must_be_valid
      rw [if_neg hnm]
    · intro raw hft
      rcases validateForCreate_cases raw with ⟨v, hok⟩ | he
      · obtain ⟨-, -, -, -, -, -, -, -, -, -, hmem⟩ := validateForCreate_ok hok
        rw [hft] at hmem
        exact absurd hmem hnm
      · exact he
    · intro ru hft
      rcases validateForUpdate_cases ru with ⟨u, hok⟩ | he
      · obtain ⟨-, -, -, -, -, -, -, -, hmem⟩ := validateForUpdate_ok hok
        rw [hft] at hmem
        exact absurd hmem hnm
      · exact he
  · intro hyes
    have hmem := (lower_mem_valid_types_iff fuel).mpr hyes
    unfold fuel_type_must_be_valid
    rw [if_pos hmem]

/-- C9 witness: the fuel type check rejecting snapple and accepting the
uppercase variant of gasoline. -/
theorem C9_witness :
    (¬ ∃ ft ∈ valid_types, ciEq (strCodes "snapple") ft) ∧
    fuel_type_must_be_valid (strCodes "snapple") =
      .error (.validationError "fuel_type" "Invalid fuel type") ∧
    (∃ ft ∈ valid_types, ciEq (strCodes "GASOLINE") ft) ∧
    fuel_type_must_be_valid (strCodes "GASOLINE") = .ok (pyLower (strCodes "GASOLINE")) :=
  ⟨by decide, ((C9_fuel_type_check (strCodes "snapple")).1 (by decide)).1, by decide,
    (C9_fuel_type_check (strCodes "GASOLINE")).2 (by decide)⟩

/-- C10: the lookup key of get, update and delete is never validated:
for every key string, whatever its length or characters, the only
possible failure of these operations is NotFoundError (never a
ValidationError), storage is unchanged on failure, and the failure
occurs exactly when no stored row matches the lookup. -/
theorem C10_lookup_key_unvalidated (id : PyStr) (u : VehicleUpdate) (st : Storage) :
    (∀ e, get_vehicle id st = .error e → e = .notFound) ∧
    (∀ e st2, update_vehicle id u st = (.error e, st2) → e = .notFound ∧ st2 = st) ∧
    (∀ e st2, delete_vehicle id st = (.error e, st2) → e = .notFound ∧ st2 = st) ∧
    (findVehicle id st = none →
      get_vehicle id st = .error .notFound ∧
      update_vehicle id u st = (.error .notFound, st) ∧
      delete_vehicle id st = (.error .notFound, st)) := by
  refine ⟨?_, ?_, ?_, ?_⟩
  · intro e he
    unfold get_vehicle at he
    cases hf : findVehicle id st with
    | none =>
      rw [hf] at he
      cases he
      rfl
    | some r =>
      rw [hf] at he
      cases he
  · intro e st2 he
    unfold update_vehicle at he
    cases hres : updateFirst id u st with
    | none =>
      rw [hres] at he
      simp only [Prod.mk.injEq, Except.error.injEq] at he
      exact ⟨he.1.symm, he.2.symm⟩
    | some pr =>
      obtain ⟨v2, st3⟩ := pr
      rw [hres] at he
      simp at he
  · intro e st2 he
    unfold delete_vehicle at he
    cases hres : deleteFirst id st with
    | none =>
      rw [hres] at he
      simp only [Prod.mk.injEq, Except.error.injEq] at he
      exact ⟨he.1.symm, he.2.symm⟩
    | some st3 =>
      rw [hres] at he
      simp at he
  · intro hf
    have hu : updateFirst id u st = none := updateFirst_eq_none.mpr hf
    have hd : deleteFirst id st = none := deleteFirst_eq_none.mpr hf
    refine ⟨?_, ?_, ?_⟩
    · unfold get_vehicle
      rw [hf]
    · unfold update_vehicle
      rw [hu]
    · unfold delete_vehicle
      rw [hd]

/-- C10 witness: the three operations applied to a three-character
non-matching key against a one-row table. -/
theorem C10_witness :
    findVehicle (strCodes "abc") [sampleVehicle] = none ∧
    (get_vehicle (strCodes "abc") [sampleVehicle] = .error .notFound ∧
      update_vehicle (strCodes "abc") sampleUpdate [sampleVehicle] =
        (.error .notFound, [sampleVehicle]) ∧
      delete_vehicle (strCodes "abc") [sampleVehicle] =
        (.error .notFound, [sampleVehicle])) :=
  ⟨by decide,
    (C10_lookup_key_unvalidated (strCodes "abc") sampleUpdate [sampleVehicle]).2.2.2
      (by decide)⟩

end VehicleApi
